import Mathlib

/-!
Verification of the `limited-github-cli-mcp` server (`src/index.ts`).

The server exposes four GitHub pull-request tools over MCP.  Each tool call
is validated by a type-guard predicate, turned into a `gh` command-line
suffix by string concatenation, executed via `execSync`, and the captured
output (or error) is wrapped in a reply envelope.

We shallowly embed the JavaScript values the handlers manipulate, the four
validators (both as exception-propagating computations, mirroring the fact
that property access in JavaScript can throw on `null`/`undefined`
receivers, and as boolean predicates), the four command builders, the
`executeGhCommand` wrapper and the `CallToolRequestSchema` dispatcher.
JavaScript numbers (IEEE-754 doubles) are modelled as exact rationals: the
operations the source applies to them (`typeof`, `Number.isInteger`,
comparison with zero, truthiness, decimal printing of integral values) all
have exact counterparts there; `NaN` and the shortest-round-trip printing of
non-integral doubles are outside the model and outside every claim.
-/

/-- A JavaScript runtime value, as far as the handlers observe them:
`null`, `undefined`, booleans, numbers (modelled as exact rationals),
strings, object records (field lists; object literals produced by JSON
decoding have pairwise distinct keys) and arrays. -/
inductive JSValue where
  | null : JSValue
  | undefined : JSValue
  | bool : Bool → JSValue
  | num : ℚ → JSValue
  | str : String → JSValue
  | obj : List (String × JSValue) → JSValue
  | arr : List JSValue → JSValue

/-- The check `typeof v === 'object'`: true exactly for `null`, plain objects and
arrays. -/
def JSValue.typeofIsObject : JSValue → Bool
  | .null => true
  | .obj _ => true
  | .arr _ => true
  | _ => false

/-- The check `v === null`. -/
def JSValue.isNull : JSValue → Bool
  | .null => true
  | _ => false

/-- The check `v === undefined`. -/
def JSValue.isUndefined : JSValue → Bool
  | .undefined => true
  | _ => false

/-- The check `typeof v === 'string'`. -/
def JSValue.isString : JSValue → Bool
  | .str _ => true
  | _ => false

/-- The check `typeof v === 'number'`. -/
def JSValue.isNumber : JSValue → Bool
  | .num _ => true
  | _ => false

/-- The check `typeof v === 'boolean'`. -/
def JSValue.isBool : JSValue → Bool
  | .bool _ => true
  | _ => false

/-- Total property access `v.k`, defined on receivers on which JavaScript
property access does not throw: a missing key, an array's non-index key and
any primitive receiver all yield `undefined`.  On `null` and `undefined`
(where JavaScript throws a `TypeError`) we return `undefined`; the
exception-aware access is `JSValue.getE` below, and the handlers only reach
`get` behind guards that rule those receivers out. -/
def JSValue.get : JSValue → String → JSValue
  | .obj fields, k => ((fields.find? (fun p => p.1 == k)).map Prod.snd).getD .undefined
  | _, _ => .undefined

/-- Property access `v.k` as JavaScript evaluates it: reading a property of
`null` or `undefined` throws a `TypeError`; every other receiver yields
`JSValue.get`. -/
def JSValue.getE : JSValue → String → Except String JSValue
  | .null, k => .error ("TypeError: Cannot read properties of null (reading " ++ k ++ ")")
  | .undefined, k => .error ("TypeError: Cannot read properties of undefined (reading " ++ k ++ ")")
  | v, k => .ok (v.get k)

/-- JavaScript truthiness as used by the `if (field)` guards of the command
builders.  Falsy values among those representable here: `null`,
`undefined`, `false`, `0`, `""`.  (`NaN`, also falsy, has no counterpart in
the exact-rational model.) -/
def JSValue.truthy : JSValue → Bool
  | .null => false
  | .undefined => false
  | .bool b => b
  | .num q => !(q == 0)
  | .str s => !(s == "")
  | .obj _ => true
  | .arr _ => true

/-- Rendering of a JavaScript number by template interpolation.  The source
relies on JavaScript's Number-to-String conversion; integral values — the
only ones a validated handler ever interpolates, and all that the spec's
templates exercise — print as plain decimal integers (`-0` does not arise:
rationals are normalised).  Non-integral doubles print by a
shortest-round-trip decimal algorithm with no exact counterpart on ℚ; we
render them as `num/den`, a choice no theorem below depends on. -/
def jsNumToString (q : ℚ) : String :=
  if q.den = 1 then toString q.num else toString q

/-- The check `Number.isInteger(v)`: false on every non-number. -/
def jsNumIsInteger : JSValue → Bool
  | .num q => q.den == 1
  | _ => false

/-- The comparison `v > 0` as the validators apply it.  The source only evaluates this
after `typeof v === 'number'` has succeeded, so only the number case is
ever reached; on other receivers we return `false`. -/
def jsNumPositive : JSValue → Bool
  | .num q => decide (0 < q)
  | _ => false

/-- The membership test `['open', 'closed', 'merged', 'all'].includes(v)` for a list of string
literals: `Array.prototype.includes` compares with SameValueZero, which on
a string element is string equality and is false for every non-string
candidate. -/
def jsStringIncludes (elems : List String) : JSValue → Bool
  | .str s => elems.contains s
  | _ => false

mutual

/-- JavaScript String() conversion as performed by template interpolation
`${v}`. -/
def JSValue.toDisplayString : JSValue → String
  | .null => "null"
  | .undefined => "undefined"
  | .bool b => if b then "true" else "false"
  | .num q => jsNumToString q
  | .str s => s
  | .obj _ => "[object Object]"
  | .arr vs => jsArrayJoin vs

/-- The conversion `Array.prototype.toString`: elements joined with commas. -/
def jsArrayJoin : List JSValue → String
  | [] => ""
  | [v] => jsArrayElem v
  | v :: vs => jsArrayElem v ++ "," ++ jsArrayJoin vs

/-- Element rendering inside an array join: `null` and `undefined` render
as the empty string there. -/
def jsArrayElem : JSValue → String
  | .null => ""
  | .undefined => ""
  | .bool b => if b then "true" else "false"
  | .num q => jsNumToString q
  | .str s => s
  | .obj _ => "[object Object]"
  | .arr vs => jsArrayJoin vs

end

/-! ## Validators

Each validator is translated twice: `isValid…Args` follows the source
expression operation by operation, with property access in the
exception-propagating `Except` (JavaScript `&&` short-circuits left to
right, so each conjunct is an early `return false` and each property read
may in principle throw); `isValid…ArgsB` is the same check as a boolean
predicate over total access.  The `…_never_throws` lemmas prove the two
agree — the guards `typeof args === 'object' && args !== null` run before
any property read, so no read ever throws. -/

/-- Validator `isValidCreatePrArgs` (src/index.ts:36-46), exception-aware.  Each
`&&` conjunct of the source becomes, in evaluation order, a short-circuit
branch returning `false`; every property read goes through `getE`. -/
def isValidCreatePrArgs (args : JSValue) : Except String Bool :=
  match args.typeofIsObject with
  | false => Except.ok false
  | true =>
  match args.isNull with
  | true => Except.ok false
  | false =>
  match args.getE "title" with
  | Except.error e => Except.error e
  | Except.ok title =>
  match title.isString with
  | false => Except.ok false
  | true =>
  match args.getE "body" with
  | Except.error e => Except.error e
  | Except.ok body =>
  match body.isUndefined || body.isString with
  | false => Except.ok false
  | true =>
  match args.getE "base" with
  | Except.error e => Except.error e
  | Except.ok base =>
  match base.isUndefined || base.isString with
  | false => Except.ok false
  | true =>
  match args.getE "head" with
  | Except.error e => Except.error e
  | Except.ok head =>
  match head.isUndefined || head.isString with
  | false => Except.ok false
  | true =>
  match args.getE "draft" with
  | Except.error e => Except.error e
  | Except.ok draft =>
  match draft.isUndefined || draft.isBool with
  | false => Except.ok false
  | true => Except.ok true

/-- Validator `isValidCreatePrArgs` as a boolean predicate. -/
def isValidCreatePrArgsB (args : JSValue) : Bool :=
  args.typeofIsObject
  && !args.isNull
  && (args.get "title").isString
  && ((args.get "body").isUndefined || (args.get "body").isString)
  && ((args.get "base").isUndefined || (args.get "base").isString)
  && ((args.get "head").isUndefined || (args.get "head").isString)
  && ((args.get "draft").isUndefined || (args.get "draft").isBool)

theorem isValidCreatePrArgs_never_throws (args : JSValue) :
    isValidCreatePrArgs args = Except.ok (isValidCreatePrArgsB args) := by
  cases args <;>
    simp only [isValidCreatePrArgs, isValidCreatePrArgsB, JSValue.typeofIsObject,
      JSValue.isNull, JSValue.getE] <;>
  first
  | rfl
  | · generalize (JSValue.get _ "title").isString = b1
      generalize ((JSValue.get _ "body").isUndefined || (JSValue.get _ "body").isString) = b2
      generalize ((JSValue.get _ "base").isUndefined || (JSValue.get _ "base").isString) = b3
      generalize ((JSValue.get _ "head").isUndefined || (JSValue.get _ "head").isString) = b4
      generalize ((JSValue.get _ "draft").isUndefined || (JSValue.get _ "draft").isBool) = b5
      cases b1 <;> cases b2 <;> cases b3 <;> cases b4 <;> cases b5 <;> rfl

/-- Validator `isValidListPrArgs` (src/index.ts:55-64), exception-aware. -/
def isValidListPrArgs (args : JSValue) : Except String Bool :=
  match args.typeofIsObject with
  | false => Except.ok false
  | true =>
  match args.isNull with
  | true => Except.ok false
  | false =>
  match args.getE "state" with
  | Except.error e => Except.error e
  | Except.ok state =>
  match state.isUndefined || jsStringIncludes ["open", "closed", "merged", "all"] state with
  | false => Except.ok false
  | true =>
  match args.getE "base" with
  | Except.error e => Except.error e
  | Except.ok base =>
  match base.isUndefined || base.isString with
  | false => Except.ok false
  | true =>
  match args.getE "limit" with
  | Except.error e => Except.error e
  | Except.ok limit =>
  match limit.isUndefined || limit.isNumber with
  | false => Except.ok false
  | true => Except.ok true

/-- Validator `isValidListPrArgs` as a boolean predicate. -/
def isValidListPrArgsB (args : JSValue) : Bool :=
  args.typeofIsObject
  && !args.isNull
  && ((args.get "state").isUndefined
      || jsStringIncludes ["open", "closed", "merged", "all"] (args.get "state"))
  && ((args.get "base").isUndefined || (args.get "base").isString)
  && ((args.get "limit").isUndefined || (args.get "limit").isNumber)

theorem isValidListPrArgs_never_throws (args : JSValue) :
    isValidListPrArgs args = Except.ok (isValidListPrArgsB args) := by
  cases args <;>
    simp only [isValidListPrArgs, isValidListPrArgsB, JSValue.typeofIsObject,
      JSValue.isNull, JSValue.getE] <;>
  first
  | rfl
  | · generalize ((JSValue.get _ "state").isUndefined
        || jsStringIncludes ["open", "closed", "merged", "all"] (JSValue.get _ "state")) = b1
      generalize ((JSValue.get _ "base").isUndefined || (JSValue.get _ "base").isString) = b2
      generalize ((JSValue.get _ "limit").isUndefined || (JSValue.get _ "limit").isNumber) = b3
      cases b1 <;> cases b2 <;> cases b3 <;> rfl

/-- Validator `isValidViewPrArgs` (src/index.ts:71-79), exception-aware.  The source
reads `args.number` three times (`typeof`, `Number.isInteger`, `> 0`). -/
def isValidViewPrArgs (args : JSValue) : Except String Bool :=
  match args.typeofIsObject with
  | false => Except.ok false
  | true =>
  match args.isNull with
  | true => Except.ok false
  | false =>
  match args.getE "number" with
  | Except.error e => Except.error e
  | Except.ok n =>
  match n.isNumber with
  | false => Except.ok false
  | true =>
  match args.getE "number" with
  | Except.error e => Except.error e
  | Except.ok n =>
  match jsNumIsInteger n with
  | false => Except.ok false
  | true =>
  match args.getE "number" with
  | Except.error e => Except.error e
  | Except.ok n =>
  match jsNumPositive n with
  | false => Except.ok false
  | true => Except.ok true

/-- Validator `isValidViewPrArgs` as a boolean predicate. -/
def isValidViewPrArgsB (args : JSValue) : Bool :=
  args.typeofIsObject
  && !args.isNull
  && (args.get "number").isNumber
  && jsNumIsInteger (args.get "number")
  && jsNumPositive (args.get "number")

theorem isValidViewPrArgs_never_throws (args : JSValue) :
    isValidViewPrArgs args = Except.ok (isValidViewPrArgsB args) := by
  cases args <;>
    simp only [isValidViewPrArgs, isValidViewPrArgsB, JSValue.typeofIsObject,
      JSValue.isNull, JSValue.getE] <;>
  first
  | rfl
  | · generalize (JSValue.get _ "number").isNumber = b1
      generalize jsNumIsInteger (JSValue.get _ "number") = b2
      generalize jsNumPositive (JSValue.get _ "number") = b3
      cases b1 <;> cases b2 <;> cases b3 <;> rfl

/-- Validator `isValidCommentPrArgs` (src/index.ts:87-96), exception-aware. -/
def isValidCommentPrArgs (args : JSValue) : Except String Bool :=
  match args.typeofIsObject with
  | false => Except.ok false
  | true =>
  match args.isNull with
  | true => Except.ok false
  | false =>
  match args.getE "number" with
  | Except.error e => Except.error e
  | Except.ok n =>
  match n.isNumber with
  | false => Except.ok false
  | true =>
  match args.getE "number" with
  | Except.error e => Except.error e
  | Except.ok n =>
  match jsNumIsInteger n with
  | false => Except.ok false
  | true =>
  match args.getE "number" with
  | Except.error e => Except.error e
  | Except.ok n =>
  match jsNumPositive n with
  | false => Except.ok false
  | true =>
  match args.getE "body" with
  | Except.error e => Except.error e
  | Except.ok body =>
  match body.isString with
  | false => Except.ok false
  | true => Except.ok true

/-- Validator `isValidCommentPrArgs` as a boolean predicate. -/
def isValidCommentPrArgsB (args : JSValue) : Bool :=
  args.typeofIsObject
  && !args.isNull
  && (args.get "number").isNumber
  && jsNumIsInteger (args.get "number")
  && jsNumPositive (args.get "number")
  && (args.get "body").isString

theorem isValidCommentPrArgs_never_throws (args : JSValue) :
    isValidCommentPrArgs args = Except.ok (isValidCommentPrArgsB args) := by
  cases args <;>
    simp only [isValidCommentPrArgs, isValidCommentPrArgsB, JSValue.typeofIsObject,
      JSValue.isNull, JSValue.getE] <;>
  first
  | rfl
  | · generalize (JSValue.get _ "number").isNumber = b1
      generalize jsNumIsInteger (JSValue.get _ "number") = b2
      generalize jsNumPositive (JSValue.get _ "number") = b3
      generalize (JSValue.get _ "body").isString = b4
      cases b1 <;> cases b2 <;> cases b3 <;> cases b4 <;> rfl

/-! ## Command builders

Each handler, after validation succeeds, destructures the argument object
and assembles the `gh` argument suffix by string concatenation; optional
flags are appended under a JavaScript truthiness test `if (field)`.
Template interpolation of a value is `JSValue.toDisplayString`. -/

/-- Builder for `create_pr` (src/index.ts:225-231). -/
def createPrCommand (args : JSValue) : String :=
  "pr create --title \"" ++ (args.get "title").toDisplayString ++ "\""
  ++ (if (args.get "body").truthy then
        " --body \"" ++ (args.get "body").toDisplayString ++ "\"" else "")
  ++ (if (args.get "base").truthy then
        " --base \"" ++ (args.get "base").toDisplayString ++ "\"" else "")
  ++ (if (args.get "head").truthy then
        " --head \"" ++ (args.get "head").toDisplayString ++ "\"" else "")
  ++ (if (args.get "draft").truthy then " --draft" else "")

/-- Builder for `list_prs` (src/index.ts:267-272). -/
def listPrsCommand (args : JSValue) : String :=
  "pr list"
  ++ (if (args.get "state").truthy then
        " --state " ++ (args.get "state").toDisplayString else "")
  ++ (if (args.get "base").truthy then
        " --base " ++ (args.get "base").toDisplayString else "")
  ++ (if (args.get "limit").truthy then
        " --limit " ++ (args.get "limit").toDisplayString else "")

/-- Builder for `view_pr` (src/index.ts:308-309). -/
def viewPrCommand (args : JSValue) : String :=
  "pr view " ++ (args.get "number").toDisplayString

/-- Builder for `comment_pr` (src/index.ts:345-346). -/
def commentPrCommand (args : JSValue) : String :=
  "pr comment " ++ (args.get "number").toDisplayString
  ++ " --body \"" ++ (args.get "body").toDisplayString ++ "\""

/-- The conditionally appended flag pieces of `createPrCommand`, in the
order the source appends them, each tagged with the flag it carries.
Joining the second components after the fixed `pr create --title "…"`
head reproduces the command string exactly
(`createPrCommand_eq_segments`); the tags let theorems count how many
times the builder appended a given flag. -/
def createPrFlagSegments (args : JSValue) : List (String × String) :=
  (if (args.get "body").truthy then
    [("--body", " --body \"" ++ (args.get "body").toDisplayString ++ "\"")] else [])
  ++ (if (args.get "base").truthy then
    [("--base", " --base \"" ++ (args.get "base").toDisplayString ++ "\"")] else [])
  ++ (if (args.get "head").truthy then
    [("--head", " --head \"" ++ (args.get "head").toDisplayString ++ "\"")] else [])
  ++ (if (args.get "draft").truthy then [("--draft", " --draft")] else [])

/-- The conditionally appended flag pieces of `listPrsCommand`, tagged. -/
def listPrsFlagSegments (args : JSValue) : List (String × String) :=
  (if (args.get "state").truthy then
    [("--state", " --state " ++ (args.get "state").toDisplayString)] else [])
  ++ (if (args.get "base").truthy then
    [("--base", " --base " ++ (args.get "base").toDisplayString)] else [])
  ++ (if (args.get "limit").truthy then
    [("--limit", " --limit " ++ (args.get "limit").toDisplayString)] else [])

/-- Concatenation of a list of string pieces. -/
def concatSegments : List String → String
  | [] => ""
  | s :: rest => s ++ concatSegments rest

theorem string_append_empty (s : String) : s ++ "" = s := by
  cases s with
  | mk data => show String.mk (data ++ []) = String.mk data
               rw [List.append_nil]

theorem string_append_assoc (a b c : String) : a ++ b ++ c = a ++ (b ++ c) := by
  cases a with
  | mk da =>
    cases b with
    | mk db =>
      cases c with
      | mk dc => show String.mk (da ++ db ++ dc) = String.mk (da ++ (db ++ dc))
                 rw [List.append_assoc]

theorem createPrCommand_eq_segments (args : JSValue) :
    createPrCommand args =
      "pr create --title \"" ++ (args.get "title").toDisplayString ++ "\""
        ++ concatSegments ((createPrFlagSegments args).map Prod.snd) := by
  unfold createPrCommand createPrFlagSegments
  split_ifs <;>
    simp [concatSegments, string_append_empty, string_append_assoc]

theorem listPrsCommand_eq_segments (args : JSValue) :
    listPrsCommand args =
      "pr list" ++ concatSegments ((listPrsFlagSegments args).map Prod.snd) := by
  unfold listPrsCommand listPrsFlagSegments
  split_ifs <;>
    simp [concatSegments, string_append_empty, string_append_assoc]

/-! ## Executor and dispatcher

`execSync` is the external boundary: we model one run of the external `gh`
process as an oracle from the command suffix (the string the handler built;
the source prepends the program name, running `` execSync(`gh ${command}`) ``)
to an outcome — captured standard output on success, or a thrown value.  On
a non-zero exit or a spawn failure `execSync` throws an `Error`; a thrown
non-`Error` value is also representable, since `executeGhCommand` tests
`error instanceof Error` and rethrows anything else. -/

/-- Outcome of one `execSync` call, indexed by the command suffix. -/
inductive ExecOutcome where
  | ok : String → ExecOutcome
  | throwError : String → ExecOutcome
  | throwNonError : JSValue → ExecOutcome

/-- MCP error codes used by the source. -/
inductive ErrorCode where
  | internalError : ErrorCode
  | invalidParams : ErrorCode
  | methodNotFound : ErrorCode
deriving DecidableEq

/-- A value thrown by the embedded code: an `McpError` (modelled by its
code and the message given to its constructor — per spec §7 the flagged
reply's text embeds the underlying error detail), some other `Error`, or a
thrown non-`Error` value. -/
inductive Thrown where
  | mcpError : ErrorCode → String → Thrown
  | jsError : String → Thrown
  | nonErrorValue : JSValue → Thrown

/-- Wrapper `executeGhCommand` (src/index.ts:13-25): run the command; catch a
thrown `Error` and rewrap it as an `McpError` with code `InternalError`
whose message embeds the underlying message; rethrow anything that is not
an `Error`. -/
def executeGhCommand (exec : String → ExecOutcome) (command : String) :
    Except Thrown String :=
  match exec command with
  | ExecOutcome.ok stdout => Except.ok stdout
  | ExecOutcome.throwError msg =>
      Except.error (Thrown.mcpError ErrorCode.internalError ("GitHub CLI error: " ++ msg))
  | ExecOutcome.throwNonError v => Except.error (Thrown.nonErrorValue v)

/-- The reply envelope: `content` is the ordered list of text blocks (each
entry the `text` of one `type: 'text'` block), and `isError` models the
presence of the `isError: true` flag (`false` = flag absent, as on the
success path). -/
structure ToolReply where
  content : List String
  isError : Bool
deriving DecidableEq

/-- The `CallToolRequestSchema` handler (src/index.ts:215-380): switch on
the tool name; an unmatched name throws `McpError(MethodNotFound)`.  Each
case validates (a validation failure throws `McpError(InvalidParams)`; a
`TypeError` escaping a validator — which `…_never_throws` rules out —
would propagate), builds the command, and runs it inside `try`/`catch`:
a caught `McpError` becomes an ordinary reply flagged `isError: true`
whose single text block is the error's message; anything else is
rethrown. -/
def handleCallTool (name : String) (args : JSValue) (exec : String → ExecOutcome) :
    Except Thrown ToolReply :=
  match name with
  | "create_pr" =>
    match isValidCreatePrArgs args with
    | Except.error e => Except.error (Thrown.jsError e)
    | Except.ok valid =>
      match valid with
      | false => Except.error (Thrown.mcpError ErrorCode.invalidParams
          "Invalid create_pr arguments")
      | true =>
        match executeGhCommand exec (createPrCommand args) with
        | Except.ok result => Except.ok ⟨[result], false⟩
        | Except.error (Thrown.mcpError _ msg) => Except.ok ⟨[msg], true⟩
        | Except.error e => Except.error e
  | "list_prs" =>
    match isValidListPrArgs args with
    | Except.error e => Except.error (Thrown.jsError e)
    | Except.ok valid =>
      match valid with
      | false => Except.error (Thrown.mcpError ErrorCode.invalidParams
          "Invalid list_prs arguments")
      | true =>
        match executeGhCommand exec (listPrsCommand args) with
        | Except.ok result => Except.ok ⟨[result], false⟩
        | Except.error (Thrown.mcpError _ msg) => Except.ok ⟨[msg], true⟩
        | Except.error e => Except.error e
  | "view_pr" =>
    match isValidViewPrArgs args with
    | Except.error e => Except.error (Thrown.jsError e)
    | Except.ok valid =>
      match valid with
      | false => Except.error (Thrown.mcpError ErrorCode.invalidParams
          "Invalid view_pr arguments")
      | true =>
        match executeGhCommand exec (viewPrCommand args) with
        | Except.ok result => Except.ok ⟨[result], false⟩
        | Except.error (Thrown.mcpError _ msg) => Except.ok ⟨[msg], true⟩
        | Except.error e => Except.error e
  | "comment_pr" =>
    match isValidCommentPrArgs args with
    | Except.error e => Except.error (Thrown.jsError e)
    | Except.ok valid =>
      match valid with
      | false => Except.error (Thrown.mcpError ErrorCode.invalidParams
          "Invalid comment_pr arguments")
      | true =>
        match executeGhCommand exec (commentPrCommand args) with
        | Except.ok result => Except.ok ⟨[result], false⟩
        | Except.error (Thrown.mcpError _ msg) => Except.ok ⟨[msg], true⟩
        | Except.error e => Except.error e
  | _ => Except.error (Thrown.mcpError ErrorCode.methodNotFound ("Unknown tool: " ++ name))

/-! ## Dispatcher evaluation lemmas -/

theorem handleCallTool_create_invalid (args : JSValue) (exec : String → ExecOutcome)
    (h : isValidCreatePrArgsB args = false) :
    handleCallTool "create_pr" args exec =
      Except.error (Thrown.mcpError ErrorCode.invalidParams "Invalid create_pr arguments") := by
  simp only [handleCallTool, isValidCreatePrArgs_never_throws, h]

theorem handleCallTool_create_execError (args : JSValue) (exec : String → ExecOutcome)
    (msg : String) (h : isValidCreatePrArgsB args = true)
    (hx : exec (createPrCommand args) = ExecOutcome.throwError msg) :
    handleCallTool "create_pr" args exec =
      Except.ok ⟨["GitHub CLI error: " ++ msg], true⟩ := by
  simp only [handleCallTool, isValidCreatePrArgs_never_throws, h, executeGhCommand, hx]

theorem handleCallTool_create_execOk (args : JSValue) (exec : String → ExecOutcome)
    (out : String) (h : isValidCreatePrArgsB args = true)
    (hx : exec (createPrCommand args) = ExecOutcome.ok out) :
    handleCallTool "create_pr" args exec = Except.ok ⟨[out], false⟩ := by
  simp only [handleCallTool, isValidCreatePrArgs_never_throws, h, executeGhCommand, hx]

theorem handleCallTool_list_invalid (args : JSValue) (exec : String → ExecOutcome)
    (h : isValidListPrArgsB args = false) :
    handleCallTool "list_prs" args exec =
      Except.error (Thrown.mcpError ErrorCode.invalidParams "Invalid list_prs arguments") := by
  simp only [handleCallTool, isValidListPrArgs_never_throws, h]

theorem handleCallTool_list_execError (args : JSValue) (exec : String → ExecOutcome)
    (msg : String) (h : isValidListPrArgsB args = true)
    (hx : exec (listPrsCommand args) = ExecOutcome.throwError msg) :
    handleCallTool "list_prs" args exec =
      Except.ok ⟨["GitHub CLI error: " ++ msg], true⟩ := by
  simp only [handleCallTool, isValidListPrArgs_never_throws, h, executeGhCommand, hx]

theorem handleCallTool_list_execOk (args : JSValue) (exec : String → ExecOutcome)
    (out : String) (h : isValidListPrArgsB args = true)
    (hx : exec (listPrsCommand args) = ExecOutcome.ok out) :
    handleCallTool "list_prs" args exec = Except.ok ⟨[out], false⟩ := by
  simp only [handleCallTool, isValidListPrArgs_never_throws, h, executeGhCommand, hx]

theorem handleCallTool_view_invalid (args : JSValue) (exec : String → ExecOutcome)
    (h : isValidViewPrArgsB args = false) :
    handleCallTool "view_pr" args exec =
      Except.error (Thrown.mcpError ErrorCode.invalidParams "Invalid view_pr arguments") := by
  simp only [handleCallTool, isValidViewPrArgs_never_throws, h]

theorem handleCallTool_view_execError (args : JSValue) (exec : String → ExecOutcome)
    (msg : String) (h : isValidViewPrArgsB args = true)
    (hx : exec (viewPrCommand args) = ExecOutcome.throwError msg) :
    handleCallTool "view_pr" args exec =
      Except.ok ⟨["GitHub CLI error: " ++ msg], true⟩ := by
  simp only [handleCallTool, isValidViewPrArgs_never_throws, h, executeGhCommand, hx]

theorem handleCallTool_comment_invalid (args : JSValue) (exec : String → ExecOutcome)
    (h : isValidCommentPrArgsB args = false) :
    handleCallTool "comment_pr" args exec =
      Except.error (Thrown.mcpError ErrorCode.invalidParams "Invalid comment_pr arguments") := by
  simp only [handleCallTool, isValidCommentPrArgs_never_throws, h]

theorem handleCallTool_comment_execError (args : JSValue) (exec : String → ExecOutcome)
    (msg : String) (h : isValidCommentPrArgsB args = true)
    (hx : exec (commentPrCommand args) = ExecOutcome.throwError msg) :
    handleCallTool "comment_pr" args exec =
      Except.ok ⟨["GitHub CLI error: " ++ msg], true⟩ := by
  simp only [handleCallTool, isValidCommentPrArgs_never_throws, h, executeGhCommand, hx]

theorem handleCallTool_unknown (name : String) (args : JSValue) (exec : String → ExecOutcome)
    (h1 : name ≠ "create_pr") (h2 : name ≠ "list_prs") (h3 : name ≠ "view_pr")
    (h4 : name ≠ "comment_pr") :
    handleCallTool name args exec =
      Except.error (Thrown.mcpError ErrorCode.methodNotFound ("Unknown tool: " ++ name)) := by
  unfold handleCallTool
  split
  any_goals rfl
  all_goals simp_all

/-! ## Flag-count lemmas

How many times the builder appended a given flag: once when the field is
truthy, not at all otherwise (in particular not at all when absent). -/

theorem createPr_count_body (args : JSValue) :
    ((createPrFlagSegments args).map Prod.fst).count "--body"
      = if (args.get "body").truthy then 1 else 0 := by
  unfold createPrFlagSegments; split_ifs <;> rfl

theorem createPr_count_base (args : JSValue) :
    ((createPrFlagSegments args).map Prod.fst).count "--base"
      = if (args.get "base").truthy then 1 else 0 := by
  unfold createPrFlagSegments; split_ifs <;> rfl

theorem createPr_count_head (args : JSValue) :
    ((createPrFlagSegments args).map Prod.fst).count "--head"
      = if (args.get "head").truthy then 1 else 0 := by
  unfold createPrFlagSegments; split_ifs <;> rfl

theorem createPr_count_draft (args : JSValue) :
    ((createPrFlagSegments args).map Prod.fst).count "--draft"
      = if (args.get "draft").truthy then 1 else 0 := by
  unfold createPrFlagSegments; split_ifs <;> rfl

theorem listPrs_count_state (args : JSValue) :
    ((listPrsFlagSegments args).map Prod.fst).count "--state"
      = if (args.get "state").truthy then 1 else 0 := by
  unfold listPrsFlagSegments; split_ifs <;> rfl

theorem listPrs_count_base (args : JSValue) :
    ((listPrsFlagSegments args).map Prod.fst).count "--base"
      = if (args.get "base").truthy then 1 else 0 := by
  unfold listPrsFlagSegments; split_ifs <;> rfl

theorem listPrs_count_limit (args : JSValue) :
    ((listPrsFlagSegments args).map Prod.fst).count "--limit"
      = if (args.get "limit").truthy then 1 else 0 := by
  unfold listPrsFlagSegments; split_ifs <;> rfl

/-! ## Claims -/

/-- C1: for every tool invocation whose arguments pass validation, if the
external command fails (execSync throws an `Error`, as it does on a
non-zero exit or a spawn failure), the dispatcher returns an ordinary
reply with `isError` set to `true` whose single text block embeds the
underlying error text, and does not propagate a protocol-level failure;
whereas for every invocation whose arguments fail validation, the
dispatcher throws a protocol-level `InvalidParams` `McpError` and never
returns a flagged reply. -/
theorem claim_C1_error_asymmetry (args : JSValue) (exec : String → ExecOutcome) (msg : String) :
    (isValidCreatePrArgsB args = true →
      exec (createPrCommand args) = ExecOutcome.throwError msg →
      ∃ t, handleCallTool "create_pr" args exec = Except.ok ⟨[t], true⟩ ∧
        ∃ pre post, t = pre ++ msg ++ post)
  ∧ (isValidCreatePrArgsB args = false →
      handleCallTool "create_pr" args exec =
        Except.error (Thrown.mcpError ErrorCode.invalidParams "Invalid create_pr arguments"))
  ∧ (isValidListPrArgsB args = true →
      exec (listPrsCommand args) = ExecOutcome.throwError msg →
      ∃ t, handleCallTool "list_prs" args exec = Except.ok ⟨[t], true⟩ ∧
        ∃ pre post, t = pre ++ msg ++ post)
  ∧ (isValidListPrArgsB args = false →
      handleCallTool "list_prs" args exec =
        Except.error (Thrown.mcpError ErrorCode.invalidParams "Invalid list_prs arguments"))
  ∧ (isValidViewPrArgsB args = true →
      exec (viewPrCommand args) = ExecOutcome.throwError msg →
      ∃ t, handleCallTool "view_pr" args exec = Except.ok ⟨[t], true⟩ ∧
        ∃ pre post, t = pre ++ msg ++ post)
  ∧ (isValidViewPrArgsB args = false →
      handleCallTool "view_pr" args exec =
        Except.error (Thrown.mcpError ErrorCode.invalidParams "Invalid view_pr arguments"))
  ∧ (isValidCommentPrArgsB args = true →
      exec (commentPrCommand args) = ExecOutcome.throwError msg →
      ∃ t, handleCallTool "comment_pr" args exec = Except.ok ⟨[t], true⟩ ∧
        ∃ pre post, t = pre ++ msg ++ post)
  ∧ (isValidCommentPrArgsB args = false →
      handleCallTool "comment_pr" args exec =
        Except.error (Thrown.mcpError ErrorCode.invalidParams "Invalid comment_pr arguments")) := by
  refine ⟨?_, ?_, ?_, ?_, ?_, ?_, ?_, ?_⟩
  · intro h hx
    exact ⟨"GitHub CLI error: " ++ msg, handleCallTool_create_execError args exec msg h hx,
      "GitHub CLI error: ", "", (string_append_empty _).symm⟩
  · exact handleCallTool_create_invalid args exec
  · intro h hx
    exact ⟨"GitHub CLI error: " ++ msg, handleCallTool_list_execError args exec msg h hx,
      "GitHub CLI error: ", "", (string_append_empty _).symm⟩
  · exact handleCallTool_list_invalid args exec
  · intro h hx
    exact ⟨"GitHub CLI error: " ++ msg, handleCallTool_view_execError args exec msg h hx,
      "GitHub CLI error: ", "", (string_append_empty _).symm⟩
  · exact handleCallTool_view_invalid args exec
  · intro h hx
    exact ⟨"GitHub CLI error: " ++ msg, handleCallTool_comment_execError args exec msg h hx,
      "GitHub CLI error: ", "", (string_append_empty _).symm⟩
  · exact handleCallTool_comment_invalid args exec

/-- Witness for C1: a concrete `create_pr` call whose execution fails with
message `boom` yields a flagged reply embedding `boom`, and a concrete
`view_pr` call with invalid (null) arguments throws `InvalidParams`. -/
theorem claim_C1_error_asymmetry_witness :
    (∃ t, handleCallTool "create_pr" (JSValue.obj [("title", JSValue.str "T")])
        (fun _ => ExecOutcome.throwError "boom") = Except.ok ⟨[t], true⟩ ∧
        ∃ pre post, t = pre ++ "boom" ++ post)
  ∧ handleCallTool "view_pr" JSValue.null (fun _ => ExecOutcome.throwError "boom") =
      Except.error (Thrown.mcpError ErrorCode.invalidParams "Invalid view_pr arguments") :=
  ⟨(claim_C1_error_asymmetry (JSValue.obj [("title", JSValue.str "T")])
      (fun _ => ExecOutcome.throwError "boom") "boom").1 (by decide) rfl,
   (claim_C1_error_asymmetry JSValue.null
      (fun _ => ExecOutcome.throwError "boom") "boom").2.2.2.2.2.1 (by decide)⟩

/-- C7: for every tool name not in the fixed set create_pr, list_prs,
view_pr, comment_pr, and every argument value and executor behaviour, the
dispatcher throws a protocol-level `MethodNotFound` `McpError` naming the
unknown tool; it never returns a (flagged) reply, and neither the
validators nor the executor influence the outcome (the result is the same
for every `args` and every `exec`). -/
theorem claim_C7_unknown_tool (name : String) (args : JSValue) (exec : String → ExecOutcome)
    (h1 : name ≠ "create_pr") (h2 : name ≠ "list_prs") (h3 : name ≠ "view_pr")
    (h4 : name ≠ "comment_pr") :
    handleCallTool name args exec =
      Except.error (Thrown.mcpError ErrorCode.methodNotFound ("Unknown tool: " ++ name)) :=
  handleCallTool_unknown name args exec h1 h2 h3 h4

/-- Witness for C7: the unknown tool name `merge_pr` is rejected with
`MethodNotFound` naming it. -/
theorem claim_C7_unknown_tool_witness :
    handleCallTool "merge_pr" (JSValue.obj []) (fun _ => ExecOutcome.ok "out") =
      Except.error (Thrown.mcpError ErrorCode.methodNotFound "Unknown tool: merge_pr") :=
  claim_C7_unknown_tool "merge_pr" (JSValue.obj []) (fun _ => ExecOutcome.ok "out")
    (by decide) (by decide) (by decide) (by decide)

/-- C5: the `list_prs` validator returns false for every argument set
whose `state` field is present and not one of the four strings `open`,
`closed`, `merged`, `all` (`includes` compares with string equality, so a
present non-string `state` also fails); and it returns true for each of
the four enum values with the other fields absent. -/
theorem claim_C5_list_state_enum (args : JSValue) :
    ((args.get "state").isUndefined = false →
      jsStringIncludes ["open", "closed", "merged", "all"] (args.get "state") = false →
      isValidListPrArgsB args = false)
  ∧ isValidListPrArgsB (JSValue.obj [("state", JSValue.str "open")]) = true
  ∧ isValidListPrArgsB (JSValue.obj [("state", JSValue.str "closed")]) = true
  ∧ isValidListPrArgsB (JSValue.obj [("state", JSValue.str "merged")]) = true
  ∧ isValidListPrArgsB (JSValue.obj [("state", JSValue.str "all")]) = true := by
  refine ⟨?_, by decide, by decide, by decide, by decide⟩
  intro h1 h2
  simp [isValidListPrArgsB, h1, h2]

/-- Witness for C5: `state: "invalid"` is rejected. -/
theorem claim_C5_list_state_enum_witness :
    isValidListPrArgsB (JSValue.obj [("state", JSValue.str "invalid")]) = false :=
  (claim_C5_list_state_enum (JSValue.obj [("state", JSValue.str "invalid")])).1
    (by decide) (by decide)

/-- C6: the `view_pr` and `comment_pr` validators return true only when
the `number` field holds a positive integer (and, for `comment_pr`, `body`
holds a string); they return false whenever `number` is non-positive, not
an integer, or not of numeric type. -/
theorem claim_C6_number_validation (args : JSValue) (q : ℚ) :
    (isValidViewPrArgsB args = true →
      ∃ p : ℚ, args.get "number" = JSValue.num p ∧ p.den = 1 ∧ 0 < p)
  ∧ (isValidCommentPrArgsB args = true →
      (∃ p : ℚ, args.get "number" = JSValue.num p ∧ p.den = 1 ∧ 0 < p)
        ∧ (args.get "body").isString = true)
  ∧ (args.get "number" = JSValue.num q → q ≤ 0 →
      isValidViewPrArgsB args = false ∧ isValidCommentPrArgsB args = false)
  ∧ (args.get "number" = JSValue.num q → q.den ≠ 1 →
      isValidViewPrArgsB args = false ∧ isValidCommentPrArgsB args = false)
  ∧ ((args.get "number").isNumber = false →
      isValidViewPrArgsB args = false ∧ isValidCommentPrArgsB args = false) := by
  refine ⟨?_, ?_, ?_, ?_, ?_⟩
  · intro h
    simp only [isValidViewPrArgsB, Bool.and_eq_true] at h
    obtain ⟨⟨⟨⟨-, -⟩, hnum⟩, hint⟩, hpos⟩ := h
    cases hn : args.get "number" with
    | num p =>
        rw [hn] at hint hpos
        simp only [jsNumIsInteger, beq_iff_eq] at hint
        simp only [jsNumPositive, decide_eq_true_eq] at hpos
        exact ⟨p, rfl, hint, hpos⟩
    | _ => rw [hn] at hnum; cases hnum
  · intro h
    simp only [isValidCommentPrArgsB, Bool.and_eq_true] at h
    obtain ⟨⟨⟨⟨⟨-, -⟩, hnum⟩, hint⟩, hpos⟩, hbody⟩ := h
    refine ⟨?_, hbody⟩
    cases hn : args.get "number" with
    | num p =>
        rw [hn] at hint hpos
        simp only [jsNumIsInteger, beq_iff_eq] at hint
        simp only [jsNumPositive, decide_eq_true_eq] at hpos
        exact ⟨p, rfl, hint, hpos⟩
    | _ => rw [hn] at hnum; cases hnum
  · intro hn hle
    have hpos : jsNumPositive (args.get "number") = false := by
      rw [hn]; simp [jsNumPositive, not_lt.mpr hle]
    constructor
    · simp [isValidViewPrArgsB, hpos]
    · simp [isValidCommentPrArgsB, hpos]
  · intro hn hden
    have hint : jsNumIsInteger (args.get "number") = false := by
      rw [hn]; simp [jsNumIsInteger, hden]
    constructor
    · simp [isValidViewPrArgsB, hint]
    · simp [isValidCommentPrArgsB, hint]
  · intro hn
    constructor
    · simp [isValidViewPrArgsB, hn]
    · simp [isValidCommentPrArgsB, hn]

/-- Witness for C6: `number: 3/2` (a non-integer number) and
`number: "7"` (a non-number) are both rejected by both validators, and a
valid `view_pr` argument set exhibits its positive integer. -/
theorem claim_C6_number_validation_witness :
    (isValidViewPrArgsB (JSValue.obj [("number", JSValue.num (mkRat 3 2))]) = false
      ∧ isValidCommentPrArgsB (JSValue.obj [("number", JSValue.num (mkRat 3 2))]) = false)
  ∧ (isValidViewPrArgsB (JSValue.obj [("number", JSValue.str "7")]) = false
      ∧ isValidCommentPrArgsB (JSValue.obj [("number", JSValue.str "7")]) = false)
  ∧ (∃ p : ℚ, (JSValue.obj [("number", JSValue.num (mkRat 7 1))]).get "number" = JSValue.num p
      ∧ p.den = 1 ∧ 0 < p) :=
  ⟨(claim_C6_number_validation (JSValue.obj [("number", JSValue.num (mkRat 3 2))])
      (mkRat 3 2)).2.2.2.1 rfl (by decide),
   (claim_C6_number_validation (JSValue.obj [("number", JSValue.str "7")]) 0).2.2.2.2
      (by decide),
   (claim_C6_number_validation (JSValue.obj [("number", JSValue.num (mkRat 7 1))]) 0).1
      (by decide)⟩

/-- C8: each of the four validators is total over arbitrary input values
and never raises: evaluated with exception-propagating property access, it
returns `Except.ok` of its boolean verdict on every input (including
`null`, primitives and values missing fields); absence of a required field
or a field of the wrong type yields the verdict `false` rather than an
exception. -/
theorem claim_C8_validators_total (args : JSValue) :
    isValidCreatePrArgs args = Except.ok (isValidCreatePrArgsB args)
  ∧ isValidListPrArgs args = Except.ok (isValidListPrArgsB args)
  ∧ isValidViewPrArgs args = Except.ok (isValidViewPrArgsB args)
  ∧ isValidCommentPrArgs args = Except.ok (isValidCommentPrArgsB args)
  ∧ ((args.get "title").isString = false → isValidCreatePrArgsB args = false)
  ∧ ((args.get "number").isNumber = false →
      isValidViewPrArgsB args = false ∧ isValidCommentPrArgsB args = false)
  ∧ ((args.get "body").isString = false → isValidCommentPrArgsB args = false)
  ∧ ((args.get "body").isUndefined = false → (args.get "body").isString = false →
      isValidCreatePrArgsB args = false) := by
  refine ⟨isValidCreatePrArgs_never_throws args, isValidListPrArgs_never_throws args,
    isValidViewPrArgs_never_throws args, isValidCommentPrArgs_never_throws args,
    ?_, ?_, ?_, ?_⟩
  · intro h; simp [isValidCreatePrArgsB, h]
  · intro h
    exact ⟨by simp [isValidViewPrArgsB, h], by simp [isValidCommentPrArgsB, h]⟩
  · intro h; simp [isValidCommentPrArgsB, h]
  · intro h1 h2; simp [isValidCreatePrArgsB, h1, h2]

/-- Witness for C8: on `null` and on a number the validators return the
verdict `false` without raising, and missing / wrongly-typed fields give
`false`. -/
theorem claim_C8_validators_total_witness :
    isValidCreatePrArgs JSValue.null = Except.ok false
  ∧ isValidListPrArgs (JSValue.num (mkRat 7 1)) = Except.ok false
  ∧ isValidCreatePrArgsB (JSValue.obj []) = false
  ∧ isValidCommentPrArgsB (JSValue.obj [("number", JSValue.num (mkRat 1 1))]) = false
  ∧ isValidCreatePrArgsB (JSValue.obj [("title", JSValue.str "t"), ("body", JSValue.num (mkRat 0 1))]) = false :=
  ⟨(claim_C8_validators_total JSValue.null).1,
   (claim_C8_validators_total (JSValue.num (mkRat 7 1))).2.1,
   (claim_C8_validators_total (JSValue.obj [])).2.2.2.2.1 (by decide),
   ((claim_C8_validators_total (JSValue.obj [("number", JSValue.num (mkRat 1 1))])).2.2.2.2.2.2.1
      (by decide)),
   ((claim_C8_validators_total
      (JSValue.obj [("title", JSValue.str "t"), ("body", JSValue.num (mkRat 0 1))])).2.2.2.2.2.2.2
      (by decide) (by decide))⟩

/-- C2: every text-valued field destined for a quoted flag (`create_pr`'s
`title` always, and its `body`, `base`, `head` whenever emitted, i.e.
non-empty; `comment_pr`'s `body` always) appears in the produced command
suffix character-for-character between double quotes with no escaping; in
particular, a title containing a double quote and shell metacharacters
reaches the command string verbatim and unescaped (the embedded quote is
not doubled or backslash-escaped: the whole command contains exactly the
four quote characters of the template plus the two carried by the title,
with no backslash). -/
theorem claim_C2_verbatim_interpolation (args : JSValue) :
    (∀ t, isValidCreatePrArgsB args = true → args.get "title" = JSValue.str t →
      ∃ v, createPrCommand args = "pr create --title \"" ++ t ++ "\"" ++ v)
  ∧ (∀ b, isValidCreatePrArgsB args = true → args.get "body" = JSValue.str b → b ≠ "" →
      ∃ u v, createPrCommand args = u ++ (" --body \"" ++ b ++ "\"") ++ v)
  ∧ (∀ b, isValidCreatePrArgsB args = true → args.get "base" = JSValue.str b → b ≠ "" →
      ∃ u v, createPrCommand args = u ++ (" --base \"" ++ b ++ "\"") ++ v)
  ∧ (∀ b, isValidCreatePrArgsB args = true → args.get "head" = JSValue.str b → b ≠ "" →
      ∃ u v, createPrCommand args = u ++ (" --head \"" ++ b ++ "\"") ++ v)
  ∧ (∀ b, isValidCommentPrArgsB args = true → args.get "body" = JSValue.str b →
      ∃ u, commentPrCommand args = u ++ (" --body \"" ++ b ++ "\""))
  ∧ createPrCommand (JSValue.obj [("title", JSValue.str "x\" ; rm data ; echo \"")]) =
      "pr create --title \"x\" ; rm data ; echo \"\""
  ∧ (createPrCommand (JSValue.obj [("title", JSValue.str "x\" ; rm data ; echo \"")])).data.count '"' = 4
  ∧ (createPrCommand (JSValue.obj [("title", JSValue.str "x\" ; rm data ; echo \"")])).data.count '\\' = 0 := by
  refine ⟨?_, ?_, ?_, ?_, ?_, rfl, by decide, by decide⟩
  · intro t hval ht
    refine ⟨concatSegments ((createPrFlagSegments args).map Prod.snd), ?_⟩
    rw [createPrCommand_eq_segments, ht]
    simp [JSValue.toDisplayString]
  · intro b hval hb hbne
    refine ⟨"pr create --title \"" ++ (args.get "title").toDisplayString ++ "\"",
      (if (args.get "base").truthy then
         " --base \"" ++ (args.get "base").toDisplayString ++ "\"" else "")
       ++ ((if (args.get "head").truthy then
         " --head \"" ++ (args.get "head").toDisplayString ++ "\"" else "")
       ++ (if (args.get "draft").truthy then " --draft" else "")), ?_⟩
    simp [createPrCommand, hb, JSValue.truthy, JSValue.toDisplayString, hbne,
      string_append_assoc]
  · intro b hval hb hbne
    refine ⟨"pr create --title \"" ++ (args.get "title").toDisplayString ++ "\""
        ++ (if (args.get "body").truthy then
             " --body \"" ++ (args.get "body").toDisplayString ++ "\"" else ""),
      (if (args.get "head").truthy then
         " --head \"" ++ (args.get "head").toDisplayString ++ "\"" else "")
       ++ (if (args.get "draft").truthy then " --draft" else ""), ?_⟩
    simp [createPrCommand, hb, JSValue.truthy, JSValue.toDisplayString, hbne,
      string_append_assoc]
  · intro b hval hb hbne
    refine ⟨"pr create --title \"" ++ (args.get "title").toDisplayString ++ "\""
        ++ (if (args.get "body").truthy then
             " --body \"" ++ (args.get "body").toDisplayString ++ "\"" else "")
        ++ (if (args.get "base").truthy then
             " --base \"" ++ (args.get "base").toDisplayString ++ "\"" else ""),
      (if (args.get "draft").truthy then " --draft" else ""), ?_⟩
    simp [createPrCommand, hb, JSValue.truthy, JSValue.toDisplayString, hbne,
      string_append_assoc]
  · intro b hval hb
    refine ⟨"pr comment " ++ (args.get "number").toDisplayString, ?_⟩
    simp [commentPrCommand, hb, JSValue.toDisplayString, string_append_assoc]

/-- Witness for C2: a concrete `create_pr` call whose body carries a quote
and metacharacters; the body appears verbatim inside the `--body` flag. -/
theorem claim_C2_verbatim_interpolation_witness :
    ∃ u v, createPrCommand
        (JSValue.obj [("title", JSValue.str "T"), ("body", JSValue.str "b\"; rm data")]) =
      u ++ (" --body \"" ++ "b\"; rm data" ++ "\"") ++ v :=
  (claim_C2_verbatim_interpolation
      (JSValue.obj [("title", JSValue.str "T"), ("body", JSValue.str "b\"; rm data")])).2.1
    "b\"; rm data" (by decide) rfl (by decide)

/-- C3 counterexample: `create_pr` with `body` supplied as the empty
string — present and of its declared type — passes validation, yet the
produced suffix carries no `--body` flag at all (`if (body)` tests
truthiness, and `""` is falsy), refuting "supplying it appends exactly one
corresponding flag". -/
theorem claim_C3_counterexample :
    isValidCreatePrArgsB (JSValue.obj [("title", JSValue.str "T"), ("body", JSValue.str "")]) = true
  ∧ (JSValue.obj [("title", JSValue.str "T"), ("body", JSValue.str "")]).get "body" =
      JSValue.str ""
  ∧ createPrCommand (JSValue.obj [("title", JSValue.str "T"), ("body", JSValue.str "")]) =
      "pr create --title \"T\""
  ∧ ((createPrFlagSegments
        (JSValue.obj [("title", JSValue.str "T"), ("body", JSValue.str "")])).map
          Prod.fst).count "--body" = 0 :=
  ⟨by decide, rfl, rfl, by decide⟩

/-- C3 (amended): for every validated `create_pr` or `list_prs` argument
set, the command suffix is the fixed head followed by the conditionally
appended flag segments, and each optional field's flag is appended exactly
once when the field's value is truthy and not at all otherwise — in
particular not at all when the field is absent, and also not at all when
it is supplied with a falsy value of its declared type (empty string, `0`,
`false`). -/
theorem claim_C3_optional_flags (args : JSValue) :
    (isValidCreatePrArgsB args = true →
      createPrCommand args =
        "pr create --title \"" ++ (args.get "title").toDisplayString ++ "\""
          ++ concatSegments ((createPrFlagSegments args).map Prod.snd)
      ∧ ((createPrFlagSegments args).map Prod.fst).count "--body"
          = (if (args.get "body").truthy then 1 else 0)
      ∧ ((createPrFlagSegments args).map Prod.fst).count "--base"
          = (if (args.get "base").truthy then 1 else 0)
      ∧ ((createPrFlagSegments args).map Prod.fst).count "--head"
          = (if (args.get "head").truthy then 1 else 0)
      ∧ ((createPrFlagSegments args).map Prod.fst).count "--draft"
          = (if (args.get "draft").truthy then 1 else 0))
  ∧ (isValidListPrArgsB args = true →
      listPrsCommand args = "pr list" ++ concatSegments ((listPrsFlagSegments args).map Prod.snd)
      ∧ ((listPrsFlagSegments args).map Prod.fst).count "--state"
          = (if (args.get "state").truthy then 1 else 0)
      ∧ ((listPrsFlagSegments args).map Prod.fst).count "--base"
          = (if (args.get "base").truthy then 1 else 0)
      ∧ ((listPrsFlagSegments args).map Prod.fst).count "--limit"
          = (if (args.get "limit").truthy then 1 else 0)) := by
  constructor
  · intro hval
    exact ⟨createPrCommand_eq_segments args, createPr_count_body args,
      createPr_count_base args, createPr_count_head args, createPr_count_draft args⟩
  · intro hval
    exact ⟨listPrsCommand_eq_segments args, listPrs_count_state args,
      listPrs_count_base args, listPrs_count_limit args⟩

/-- Witness for C3 (amended): a validated `create_pr` call with a truthy
body and no other optional field appends `--body` once and the others not
at all. -/
theorem claim_C3_optional_flags_witness :
    ((createPrFlagSegments
        (JSValue.obj [("title", JSValue.str "T"), ("body", JSValue.str "B")])).map
          Prod.fst).count "--body" = 1
  ∧ ((createPrFlagSegments
        (JSValue.obj [("title", JSValue.str "T"), ("body", JSValue.str "B")])).map
          Prod.fst).count "--draft" = 0
  ∧ ((listPrsFlagSegments (JSValue.obj [("limit", JSValue.num 0)])).map
          Prod.fst).count "--limit" = 0 :=
  ⟨((claim_C3_optional_flags
      (JSValue.obj [("title", JSValue.str "T"), ("body", JSValue.str "B")])).1
        (by decide)).2.1,
   ((claim_C3_optional_flags
      (JSValue.obj [("title", JSValue.str "T"), ("body", JSValue.str "B")])).1
        (by decide)).2.2.2.2,
   ((claim_C3_optional_flags (JSValue.obj [("limit", JSValue.num 0)])).2
        (by decide)).2.2.2⟩

theorem quote_glue_body (X : String) :
    ("\"" : String) ++ (" --body \"" ++ X) = "\" --body \"" ++ X := by
  rw [← string_append_assoc]
  rfl

theorem quote_glue_base (X : String) :
    ("\"" : String) ++ (" --base \"" ++ X) = "\" --base \"" ++ X := by
  rw [← string_append_assoc]
  rfl

theorem quote_glue_head (X : String) :
    ("\"" : String) ++ (" --head \"" ++ X) = "\" --head \"" ++ X := by
  rw [← string_append_assoc]
  rfl

/-- C4: the four builders produce exactly the literal templates, with
flags appended in the fixed template order: the claim's four instances,
plus the fully-populated `create_pr` template exhibiting the fixed order
`--title`, `--body`, `--base`, `--head`, `--draft`. -/
theorem claim_C4_command_templates (args : JSValue) :
    createPrCommand (JSValue.obj [("title", JSValue.str "Add X")]) =
      "pr create --title \"Add X\""
  ∧ listPrsCommand
      (JSValue.obj [("state", JSValue.str "open"), ("limit", JSValue.num (mkRat 5 1))]) =
      "pr list --state open --limit 5"
  ∧ (∀ q, isValidViewPrArgsB args = true → args.get "number" = JSValue.num q →
      viewPrCommand args = "pr view " ++ toString q.num)
  ∧ commentPrCommand
      (JSValue.obj [("number", JSValue.num (mkRat 123 1)), ("body", JSValue.str "LGTM!")]) =
      "pr comment 123 --body \"LGTM!\""
  ∧ (∀ t b ba hd, isValidCreatePrArgsB args = true →
      args.get "title" = JSValue.str t →
      args.get "body" = JSValue.str b → b ≠ "" →
      args.get "base" = JSValue.str ba → ba ≠ "" →
      args.get "head" = JSValue.str hd → hd ≠ "" →
      args.get "draft" = JSValue.bool true →
      createPrCommand args =
        "pr create --title \"" ++ t ++ "\" --body \"" ++ b ++ "\" --base \"" ++ ba
          ++ "\" --head \"" ++ hd ++ "\" --draft") := by
  refine ⟨rfl, rfl, ?_, rfl, ?_⟩
  · intro q hval hn
    simp only [isValidViewPrArgsB, Bool.and_eq_true] at hval
    obtain ⟨⟨⟨⟨-, -⟩, -⟩, hint⟩, -⟩ := hval
    rw [hn] at hint
    simp only [jsNumIsInteger, beq_iff_eq] at hint
    unfold viewPrCommand
    rw [hn]
    simp [JSValue.toDisplayString, jsNumToString, hint]
  · intro t b ba hd hval ht hb hbne hba hbane hhd hhdne hdr
    simp [createPrCommand, ht, hb, hba, hhd, hdr, JSValue.truthy, JSValue.toDisplayString,
      hbne, hbane, hhdne, string_append_assoc, quote_glue_body, quote_glue_base,
      quote_glue_head]

/-- Witness for C4: a concrete validated `view_pr` call prints its number
as a plain decimal integer, and a fully-populated `create_pr` call
produces the full template in order. -/
theorem claim_C4_command_templates_witness :
    viewPrCommand (JSValue.obj [("number", JSValue.num (mkRat 42 1))]) = "pr view 42"
  ∧ createPrCommand
      (JSValue.obj [("title", JSValue.str "T"), ("body", JSValue.str "B"),
        ("base", JSValue.str "main"), ("head", JSValue.str "dev"),
        ("draft", JSValue.bool true)]) =
      "pr create --title \"T\" --body \"B\" --base \"main\" --head \"dev\" --draft" :=
  ⟨(claim_C4_command_templates (JSValue.obj [("number", JSValue.num (mkRat 42 1))])).2.2.1
      (mkRat 42 1) (by decide) rfl,
   (claim_C4_command_templates
      (JSValue.obj [("title", JSValue.str "T"), ("body", JSValue.str "B"),
        ("base", JSValue.str "main"), ("head", JSValue.str "dev"),
        ("draft", JSValue.bool true)])).2.2.2.2
      "T" "B" "main" "dev" (by decide) rfl rfl (by decide) rfl (by decide) rfl (by decide) rfl⟩

/-- C9: optional flags are gated on truthiness, not mere presence: a
validated `create_pr` with `body = ""` yields no `--body` flag; a
validated `list_prs` with `limit = 0` yields no `--limit` flag; by
contrast `comment_pr`, whose `body` is required, appends `--body`
unconditionally, so `body = ""` yields `pr comment <number> --body ""`. -/
theorem claim_C9_truthiness_gating (args : JSValue) :
    (isValidCreatePrArgsB args = true → args.get "body" = JSValue.str "" →
      ((createPrFlagSegments args).map Prod.fst).count "--body" = 0
      ∧ createPrCommand args =
          "pr create --title \"" ++ (args.get "title").toDisplayString ++ "\""
            ++ concatSegments ((createPrFlagSegments args).map Prod.snd))
  ∧ (isValidListPrArgsB args = true → args.get "limit" = JSValue.num 0 →
      ((listPrsFlagSegments args).map Prod.fst).count "--limit" = 0)
  ∧ (∀ q b, isValidCommentPrArgsB args = true → args.get "number" = JSValue.num q →
      args.get "body" = JSValue.str b →
      commentPrCommand args =
        "pr comment " ++ jsNumToString q ++ (" --body \"" ++ b ++ "\""))
  ∧ commentPrCommand
      (JSValue.obj [("number", JSValue.num (mkRat 5 1)), ("body", JSValue.str "")]) =
      "pr comment 5 --body \"\"" := by
  refine ⟨?_, ?_, ?_, rfl⟩
  · intro hval hb
    refine ⟨?_, createPrCommand_eq_segments args⟩
    rw [createPr_count_body args, hb]
    simp [JSValue.truthy]
  · intro hval hl
    rw [listPrs_count_limit args, hl]
    simp [JSValue.truthy]
  · intro q b hval hn hb
    simp [commentPrCommand, hn, hb, JSValue.toDisplayString, string_append_assoc]

/-- Witness for C9: concrete instances of all three truthiness-gated
behaviours. -/
theorem claim_C9_truthiness_gating_witness :
    ((createPrFlagSegments
        (JSValue.obj [("title", JSValue.str "T"), ("body", JSValue.str "")])).map
          Prod.fst).count "--body" = 0
  ∧ ((listPrsFlagSegments (JSValue.obj [("limit", JSValue.num 0)])).map
          Prod.fst).count "--limit" = 0
  ∧ commentPrCommand
      (JSValue.obj [("number", JSValue.num (mkRat 7 1)), ("body", JSValue.str "hi")]) =
      "pr comment 7 --body \"hi\"" :=
  ⟨((claim_C9_truthiness_gating
      (JSValue.obj [("title", JSValue.str "T"), ("body", JSValue.str "")])).1
        (by decide) rfl).1,
   (claim_C9_truthiness_gating (JSValue.obj [("limit", JSValue.num 0)])).2.1
        (by decide) rfl,
   (claim_C9_truthiness_gating
      (JSValue.obj [("number", JSValue.num (mkRat 7 1)), ("body", JSValue.str "hi")])).2.2.1
        (mkRat 7 1) "hi" (by decide) rfl rfl⟩

/-- C10: the validators' non-null object check accepts arrays: the empty
array has `typeof === 'object'`, is not `null`, and every (absent) field
of `list_prs` is optional, so a `list_prs` invocation whose arguments
value is the empty array passes validation, produces the suffix
`pr list`, and is dispatched normally. -/
theorem claim_C10_array_arguments :
    (JSValue.arr []).typeofIsObject = true
  ∧ isValidListPrArgsB (JSValue.arr []) = true
  ∧ listPrsCommand (JSValue.arr []) = "pr list"
  ∧ handleCallTool "list_prs" (JSValue.arr []) (fun _ => ExecOutcome.ok "out") =
      Except.ok ⟨["out"], false⟩ :=
  ⟨rfl, by decide, rfl, rfl⟩
